import Mathlib

/-!
Shallow embedding of the `getter` image server (src/getter.go): the filename
validator, the numeric-parameter parsers (models of Go's `strconv.Atoi` and
`strconv.ParseUint`), the rectangle/crop geometry of Go's `image` package as
used by the code, the crop-and-scale step, the label-overlay step, and the
two HTTP handlers `scaledHandler` and `saveHandler` as pure functions from a
request (plus the external collaborators: blob store, JPEG codec probe, font
coverage) to a response.
-/

namespace Getter

/-- ASCII decimal digit `0`..`9` (codes 48–57). -/
def isDigitChar (c : Char) : Bool := decide (48 ≤ c.toNat ∧ c.toNat ≤ 57)

/-- Hexadecimal digit: `0`-`9`, `a`-`f` (97–102), `A`-`F` (65–70), as accepted
by Go's `strconv.ParseUint` with base 16. -/
def isHexChar (c : Char) : Bool :=
  isDigitChar c || decide (97 ≤ c.toNat ∧ c.toNat ≤ 102) || decide (65 ≤ c.toNat ∧ c.toNat ≤ 70)

/-- Numeric value of a hexadecimal digit (0 for non-digits; only applied under
an `isHexChar` guard). -/
def hexVal (c : Char) : Nat :=
  if 48 ≤ c.toNat ∧ c.toNat ≤ 57 then c.toNat - 48
  else if 97 ≤ c.toNat ∧ c.toNat ≤ 102 then c.toNat - 87
  else if 65 ≤ c.toNat ∧ c.toNat ≤ 70 then c.toNat - 55
  else 0

/-- Value of a list of decimal digits, most significant first. -/
def decVal (l : List Char) : Nat := l.foldl (fun a c => a * 10 + (c.toNat - 48)) 0

/-- Value of a list of hexadecimal digits, most significant first. -/
def hexListVal (l : List Char) : Nat := l.foldl (fun a c => a * 16 + hexVal c) 0

/-- Character allowed by the filename regexp `^[a-zA-Z0-9-]+$` of
src/getter.go line 25: ASCII letter, digit, or hyphen (code 45). -/
def isFilenameChar (c : Char) : Bool :=
  decide ((65 ≤ c.toNat ∧ c.toNat ≤ 90) ∨ (97 ≤ c.toNat ∧ c.toNat ≤ 122)
    ∨ (48 ≤ c.toNat ∧ c.toNat ≤ 57) ∨ c.toNat = 45)

/-- `validFilename.MatchString` for the anchored regexp `^[a-zA-Z0-9-]+$`
(src/getter.go line 25): the whole string is one or more allowed characters. -/
def validFilename (s : String) : Bool :=
  !s.isEmpty && s.data.all isFilenameChar

/-- Model of Go's `strconv.Atoi` (equivalently `ParseInt(s, 10, 64)` on a
64-bit platform): optional single leading `+`/`-` sign, then one or more
decimal digits, value required to fit in `int64`; any other input (empty
string, stray characters, out of range) yields an error, modelled as `none`.
Go returns a clamped value together with `ErrRange` on overflow; the caller
only tests `err != nil`, so `none` is the faithful observation. -/
def atoi (s : String) : Option Int :=
  match s.data with
  | [] => none
  | c :: rest =>
    let signed : Bool × List Char :=
      if c = '-' then (true, rest)
      else if c = '+' then (false, rest)
      else (false, c :: rest)
    let ds := signed.2
    if ds ≠ [] ∧ ds.all isDigitChar then
      let v : Int := if signed.1 then -(decVal ds : Int) else (decVal ds : Int)
      if -(2 ^ 63) ≤ v ∧ v ≤ 2 ^ 63 - 1 then some v else none
    else none

/-- Model of Go's `strconv.ParseUint(s, 10, 32)`: one or more decimal digits,
no sign permitted, value required to fit in 32 bits. -/
def parseUint32 (s : String) : Option Nat :=
  if s.data ≠ [] ∧ s.data.all isDigitChar then
    if decVal s.data < 2 ^ 32 then some (decVal s.data) else none
  else none

/-- Model of Go's `strconv.ParseUint(s, 16, 32)` used for the `color`
parameter: one or more hexadecimal digits, value required to fit in 32 bits. -/
def parseHex32 (s : String) : Option Nat :=
  if s.data ≠ [] ∧ s.data.all isHexChar then
    if hexListVal s.data < 2 ^ 32 then some (hexListVal s.data) else none
  else none

/-- A rectangle in the sense of Go's `image.Rectangle`: min and max corners. -/
structure Rect where
  minX : Int
  minY : Int
  maxX : Int
  maxY : Int
deriving DecidableEq, Repr

/-- The zero rectangle `image.ZR`. -/
def Rect.zero : Rect := ⟨0, 0, 0, 0⟩

/-- Width `Dx` of a rectangle. -/
def Rect.dx (r : Rect) : Int := r.maxX - r.minX

/-- Height `Dy` of a rectangle. -/
def Rect.dy (r : Rect) : Int := r.maxY - r.minY

/-- `Rectangle.Empty`: no points strictly inside. -/
def Rect.isEmpty (r : Rect) : Bool := decide (r.maxX ≤ r.minX ∨ r.maxY ≤ r.minY)

/-- Go's `image.Rect(x0,y0,x1,y1)`: swaps coordinates so that min ≤ max on
each axis (canonicalization). -/
def mkRect (x0 y0 x1 y1 : Int) : Rect :=
  let p := if x0 > x1 then (x1, x0) else (x0, x1)
  let q := if y0 > y1 then (y1, y0) else (y0, y1)
  ⟨p.1, q.1, p.2, q.2⟩

/-- Go's `Rectangle.Intersect`: clamp each bound inward; an empty result is
normalized to the zero rectangle `image.ZR`. -/
def Rect.intersect (r s : Rect) : Rect :=
  let t : Rect := ⟨max r.minX s.minX, max r.minY s.minY, min r.maxX s.maxX, min r.maxY s.maxY⟩
  if t.isEmpty then Rect.zero else t

/-- Membership of a pixel coordinate in a rectangle (`Point.In`). -/
def Rect.contains (r : Rect) (x y : Int) : Bool :=
  decide (r.minX ≤ x ∧ x < r.maxX ∧ r.minY ≤ y ∧ y < r.maxY)

/-- An RGBA color value, one byte per channel. -/
structure RGBA where
  r : Nat
  g : Nat
  b : Nat
  a : Nat
deriving DecidableEq, Repr

/-- Opaque white, the default label color (src/getter.go line 138). -/
def white : RGBA := ⟨255, 255, 255, 255⟩

/-- The zero RGBA value (transparent black), the content of freshly allocated
`image.NewRGBA` pixels. -/
def RGBA.zero : RGBA := ⟨0, 0, 0, 0⟩

/-- A decoded raster image: pixel bounds plus a total pixel function (Go's
`image.Image` interface: `Bounds` and `At`). -/
structure RasterImage where
  bounds : Rect
  pix : Int → Int → RGBA

/-- Go's `SubImage` as the code uses it (src/getter.go lines 96–98): the
bounds become the intersection of the requested rectangle with the source
bounds (the empty case yields the zero rectangle, matching `&YCbCr{}` with a
zero `Rect`), and the pixel grid is shared with the source. Never fails. -/
def subImage (img : RasterImage) (r : Rect) : RasterImage :=
  { bounds := r.intersect img.bounds, pix := img.pix }

/-- The scaled height computed at src/getter.go lines 108–109:
`uint(float64(Dy) * (float64(width) / float64(Dx)))`. Idealized to exact
arithmetic: truncation of the nonnegative exact quotient `H*width/W` is
natural-number division. (For the image dimensions and widths involved —
`H < 2^16` from JPEG, `width < 2^32` — the float64 computation's absolute
error is below 1/2, so its truncation stays within the ±1-of-rounding band
stated by the spec whenever the exact value does.) Only meaningful when
`W > 0`; with `W = 0` Go divides by zero and converts NaN to `uint`, which is
implementation-defined, so theorems below never rely on that case. -/
def scaledHeight (width W H : Nat) : Nat := H * width / W

/-- The `resize.Resize(width, newHeight, subImg, Lanczos3)` call
(src/getter.go line 110), modelled at the granularity the spec fixes (§4.3):
the output dimensions. The library returns the input unchanged when the
target dimensions equal the input's (its trivial case); otherwise it
allocates a new raster with bounds `(0,0)–(width,newHeight)`. Resampled
pixel values are the external library's and are not specified beyond
dimensions; the model carries the source pixel function. -/
def resizeModel (width newHeight : Nat) (img : RasterImage) : RasterImage :=
  if (width : Int) = img.bounds.dx ∧ (newHeight : Int) = img.bounds.dy then img
  else { bounds := ⟨0, 0, (width : Int), (newHeight : Int)⟩, pix := img.pix }

/-- The optional scale step (src/getter.go lines 101–111): absent `w` means
no scaling; a present `w` must parse as a 32-bit unsigned integer or the
render aborts (`none` here, surfaced as the 400 "Invalid w parameter"). -/
def scaleStep (wStr : String) (img : RasterImage) : Option RasterImage :=
  if wStr = "" then some img
  else
    match parseUint32 wStr with
    | none => none
    | some width => some (resizeModel width (scaledHeight width img.bounds.dx.toNat img.bounds.dy.toNat) img)

/-- The RGBA conversion (src/getter.go lines 113–115):
`rgbaImg := image.NewRGBA(subImg.Bounds())` then
`draw.Draw(rgbaImg, rgbaImg.Bounds(), subImg, image.Point{}, draw.Src)`.
Go's `draw.Draw` maps destination pixel `(x,y)` to source pixel
`(x - minX, y - minY)` (source point `(0,0)`, not `bounds.Min`) and clips the
copy against the source bounds translated by `bounds.Min`; destination pixels
outside the clipped region keep the zero value of a fresh RGBA buffer. -/
def toRGBA (src : RasterImage) : RasterImage :=
  { bounds := src.bounds
    pix := fun x y =>
      if src.bounds.contains x y
          && src.bounds.contains (x - src.bounds.minX) (y - src.bounds.minY) then
        src.pix (x - src.bounds.minX) (y - src.bounds.minY)
      else RGBA.zero }

/-- The color resolution for the label (src/getter.go lines 137–149): default
opaque white; a non-empty `color` parameter is parsed as base-16 into 32
bits, and on success the channels are `uint8(v>>16)`, `uint8((v>>8)&0xFF)`,
`uint8(v&0xFF)` at alpha 255; on parse failure the white default is kept. -/
def resolveColor (colorParam : String) : RGBA :=
  if colorParam = "" then white
  else
    match parseHex32 colorParam with
    | none => white
    | some v => ⟨v >>> 16 % 256, v >>> 8 % 256, v % 256, 255⟩

/-- `drawText` (src/getter.go lines 240–248) composites the label onto the
raster in place through `font.Drawer.DrawString` with a uniform source color.
`basicfont.Face7x13` is a binary-alpha bitmap face, so every destination
pixel fully covered by a glyph (and inside the destination bounds, per the
drawer's clipping) takes the source color exactly and every other pixel is
untouched. The glyph coverage of a given label string at the fixed anchor is
the external font library's; it enters the model as the function `cover`. -/
def drawText (cover : Int → Int → Bool) (col : RGBA) (img : RasterImage) : RasterImage :=
  { img with pix := fun x y =>
      if cover x y && img.bounds.contains x y then col else img.pix x y }

/-- A render request as `scaledHandler` observes it: the query parameters
(`r.URL.Query().Get` returns `""` for an absent key, so absence is the empty
string, exactly as the code tests) and the request metadata read when
building the label. -/
structure RenderRequest where
  filename : String
  x1 : String
  y1 : String
  x2 : String
  y2 : String
  w : String
  nolabel : String
  id : String
  color : String
  xForwardedFor : String
  remoteAddr : String
  userAgent : String

/-- Client IP resolution shared by both handlers (src/getter.go lines
125–131 and 223–229). -/
def clientIP (xff remoteAddr : String) : String :=
  if xff = "" then remoteAddr else (xff.splitOn ", ").headD ""

/-- The label string (src/getter.go lines 120–134). -/
def labelText (modTime now : String) (req : RenderRequest) : String :=
  let base := "FileTime: " ++ modTime ++ " CurrentTime: " ++ now
  if req.id ≠ "" then
    base ++ " IP: " ++ clientIP req.xForwardedFor req.remoteAddr
      ++ " User-Agent: " ++ req.userAgent
  else base

/-- A stored blob as the render path observes it: whether `Stat` succeeds,
the formatted modification time, and the decoded raster (`none` when
`image.Decode` fails on the stored bytes). -/
structure Blob where
  statOk : Bool
  modTime : String
  decoded : Option RasterImage

/-- The per-parameter resolution of src/getter.go lines 64–93: an absent
(empty) parameter keeps its default, a present one must parse with
`strconv.Atoi`. -/
def resolveParam (s : String) (dflt : Int) : Option Int :=
  if s = "" then some dflt else atoi s

/-- The render response: an HTTP error (status and message) or a rendered
raster. The final JPEG encoding (src/getter.go line 156) is the external
codec; per the spec's round-trip property it is dimension-preserving, so the
model delivers the raster itself. -/
inductive HResp where
  | err (status : Nat) (msg : String)
  | ok (img : RasterImage)

/-- Whether a response is an HTTP error. -/
def HResp.isErr : HResp → Bool
  | .err _ _ => true
  | .ok _ => false

/-- Dimensions (width, height) of the rendered raster, when any. -/
def HResp.outDims : HResp → Option (Int × Int)
  | .ok img => some (img.bounds.dx, img.bounds.dy)
  | .err _ _ => none

/-- The rendered pixel at `(x,y)` when the response is an image and `(x,y)`
is inside its bounds. -/
def HResp.pixAt : HResp → Int → Int → Option RGBA
  | .ok img, x, y => if img.bounds.contains x y then some (img.pix x y) else none
  | .err _ _, _, _ => none

/-- Whether the response is an image whose bounds contain `(x,y)`. -/
def HResp.inBoundsAt : HResp → Int → Int → Bool
  | .ok img, x, y => img.bounds.contains x y
  | .err _ _, _, _ => false

/-- The geometry stage of `scaledHandler` (src/getter.go lines 64–115): the
four box parameters with their defaults `(0, 0, Bounds().Max.X,
Bounds().Max.Y)`, each aborting with a 400 naming the field when present but
unparseable, then crop, optional scale, and RGBA materialization. -/
def renderGeometry (img : RasterImage) (req : RenderRequest) :
    Except (Nat × String) RasterImage :=
  match resolveParam req.x1 0 with
  | none => .error (400, "Invalid x1 parameter")
  | some x1 =>
    match resolveParam req.y1 0 with
    | none => .error (400, "Invalid y1 parameter")
    | some y1 =>
      match resolveParam req.x2 img.bounds.maxX with
      | none => .error (400, "Invalid x2 parameter")
      | some x2 =>
        match resolveParam req.y2 img.bounds.maxY with
        | none => .error (400, "Invalid y2 parameter")
        | some y2 =>
          match scaleStep req.w (subImage img (mkRect x1 y1 x2 y2)) with
          | none => .error (400, "Invalid w parameter")
          | some scaled => .ok (toRGBA scaled)

/-- The render pipeline of `scaledHandler` up to and including the RGBA
conversion (src/getter.go lines 35–115), i.e. everything before the label
step: filename check, blob load and stat, decode, then the geometry stage.
Returns the raster together with the stored file's formatted modification
time (needed by the label step). -/
def renderCore (store : String → Option Blob) (req : RenderRequest) :
    Except (Nat × String) (RasterImage × String) :=
  if req.filename = "" || !validFilename req.filename then
    .error (400, "Invalid or missing filename")
  else
    match store req.filename with
    | none => .error (404, "File not found")
    | some blob =>
      if !blob.statOk then .error (500, "Error getting file info")
      else
        match blob.decoded with
        | none => .error (500, "Error decoding the image")
        | some img =>
          match renderGeometry img req with
          | .error e => .error e
          | .ok rgba => .ok (rgba, blob.modTime)

/-- `scaledHandler` (src/getter.go lines 32–166) as a pure function. External
collaborators enter as parameters: `store` is the blob store read with
metadata, `cover` is the font library's glyph coverage for a given label
string at the fixed `(10,20)` anchor, `now` is the formatted current time.
When `nolabel` is empty the label is composited in the resolved color;
otherwise the crop/scale raster is returned untouched. -/
def scaledHandler (store : String → Option Blob) (cover : String → Int → Int → Bool)
    (now : String) (req : RenderRequest) : HResp :=
  match renderCore store req with
  | .error e => .err e.1 e.2
  | .ok res =>
    if req.nolabel = "" then
      .ok (drawText (cover (labelText res.2 now req)) (resolveColor req.color) res.1)
    else .ok res.1

/-- The bare crop/scale result: the same pipeline with the label step never
taken (what `scaledHandler` returns whenever `nolabel` is non-empty). -/
def cropScaleRaster (store : String → Option Blob) (req : RenderRequest) : HResp :=
  match renderCore store req with
  | .error e => .err e.1 e.2
  | .ok res => .ok res.1

/-- The blob store as the upload path observes it: filename to stored bytes. -/
def Store : Type := String → Option (List Nat)

/-- An upload request as `saveHandler` observes it. `formFileOk` models
whether `r.FormFile("image")` succeeds, `readOk` whether the bounded
`io.ReadAll` succeeds, `body` the form field's bytes before the size cap,
`createOk`/`writtenAll` whether `os.Create` and the subsequent `Write`
succeed, and `written` how many bytes landed when the write fails midway
(after a successful `os.Create` the file already exists truncated, so a
failed write leaves a partial blob, not the old one). -/
structure SaveRequest where
  method : String
  authHeader : String
  filename : String
  formFileOk : Bool
  readOk : Bool
  body : List Nat
  createOk : Bool
  writtenAll : Bool
  written : Nat

/-- The upload response. -/
inductive SaveResp where
  | err (status : Nat) (msg : String)
  | ok
deriving DecidableEq, Repr

/-- `saveHandler` (src/getter.go lines 168–238) as a pure state transformer
on the blob store. `isJPEG` is the external codec probe `isValidJPEG`
(decode-and-discard on the capped bytes); `maxSize` the configured cap
(`io.LimitReader` silently truncates to it); `bearerToken` the configured
secret. Stage order exactly as the code: method, bearer token, filename,
form field, bounded read, JPEG validation, then persist. -/
def saveHandler (isJPEG : List Nat → Bool) (maxSize : Nat) (bearerToken : String)
    (store : Store) (req : SaveRequest) : SaveResp × Store :=
  if req.method ≠ "POST" then (.err 405 "Only POST requests are allowed", store)
  else if req.authHeader = "" ∨ req.authHeader ≠ "Bearer " ++ bearerToken then
    (.err 401 "Unauthorized", store)
  else if req.filename = "" || !validFilename req.filename then
    (.err 400 "Invalid or missing filename", store)
  else if !req.formFileOk then (.err 400 "Error reading uploaded file", store)
  else if !req.readOk then (.err 500 "Error reading file data", store)
  else
    let data := req.body.take maxSize
    if !isJPEG data then (.err 400 "Uploaded file is not a valid JPEG", store)
    else if !req.createOk then (.err 500 "Error saving the image", store)
    else if !req.writtenAll then
      (.err 500 "Error writing to file",
        fun f => if f = req.filename then some (data.take req.written) else store f)
    else (.ok, fun f => if f = req.filename then some data else store f)

/-- A concrete 100×100 decoded image used for concrete evaluations. -/
def testImg : RasterImage :=
  { bounds := ⟨0, 0, 100, 100⟩, pix := fun _ _ => ⟨7, 7, 7, 255⟩ }

/-- A concrete stored blob holding `testImg`. -/
def testBlob : Blob := ⟨true, "2024-01-01 00:00:00", some testImg⟩

/-- A concrete blob store holding `testImg` under the name `img`. -/
def testStore : String → Option Blob :=
  fun f => if f = "img" then some testBlob else none

/-- A concrete glyph-coverage oracle: every label covers exactly the pixel
`(10, 20)` (the drawing anchor). -/
def testCover : String → Int → Int → Bool :=
  fun _ x y => x = 10 && y = 20

/-- A render request for `img` with every optional parameter absent. -/
def baseReq : RenderRequest :=
  ⟨"img", "", "", "", "", "", "", "", "", "", "", ""⟩


theorem isEmpty_false_iff (s : String) : (s.isEmpty = false) ↔ ¬ s = "" := by
  rw [Bool.eq_false_iff]
  exact not_congr (String.isEmpty_iff s)

theorem isFilenameChar_iff (c : Char) : isFilenameChar c = true ↔
    (('A' ≤ c ∧ c ≤ 'Z') ∨ ('a' ≤ c ∧ c ≤ 'z') ∨ ('0' ≤ c ∧ c ≤ '9') ∨ c = '-') := by
  unfold isFilenameChar
  rw [decide_eq_true_eq]
  constructor
  · rintro (h | h | h | h)
    · exact Or.inl h
    · exact Or.inr (Or.inl h)
    · exact Or.inr (Or.inr (Or.inl h))
    · exact Or.inr (Or.inr (Or.inr (Char.ext (UInt32.ext h))))
  · rintro (h | h | h | rfl)
    · exact Or.inl h
    · exact Or.inr (Or.inl h)
    · exact Or.inr (Or.inr (Or.inl h))
    · exact Or.inr (Or.inr (Or.inr rfl))

theorem validFilename_iff (s : String) : validFilename s = true ↔
    s ≠ "" ∧ ∀ c ∈ s.data, (('A' ≤ c ∧ c ≤ 'Z') ∨ ('a' ≤ c ∧ c ≤ 'z')
      ∨ ('0' ≤ c ∧ c ≤ '9') ∨ c = '-') := by
  unfold validFilename
  simp [List.all_eq_true, isFilenameChar_iff, isEmpty_false_iff]

/-- Claim C10: filename validation, shared by the upload and render paths,
accepts a name iff it is non-empty and consists solely of ASCII letters,
digits, and hyphens; in particular the empty string and any string
containing `/` or `.` are rejected. -/
theorem filename_validator_charset :
    (∀ s : String, validFilename s = true ↔
      s ≠ "" ∧ ∀ c ∈ s.data, (('A' ≤ c ∧ c ≤ 'Z') ∨ ('a' ≤ c ∧ c ≤ 'z')
        ∨ ('0' ≤ c ∧ c ≤ '9') ∨ c = '-'))
    ∧ (∀ s : String, ('/' ∈ s.data ∨ '.' ∈ s.data) → validFilename s = false) := by
  refine ⟨validFilename_iff, ?_⟩
  intro s h
  cases hv : validFilename s with
  | false => rfl
  | true =>
    exfalso
    have hall := ((validFilename_iff s).mp hv).2
    rcases h with h | h
    · exact absurd (hall _ h) (by decide)
    · exact absurd (hall _ h) (by decide)

/-- Claim C10 witness: a concrete accepted name and a concrete rejected one. -/
theorem filename_validator_charset_witness :
    validFilename "abc-123" = true ∧ validFilename "a/b" = false :=
  ⟨(filename_validator_charset.1 "abc-123").mpr (by decide),
   filename_validator_charset.2 "a/b" (Or.inl (by decide))⟩

theorem bearer_ne_empty (tok : String) : "Bearer " ++ tok ≠ "" := by
  intro h
  have hd := congrArg String.data h
  simp [String.data_append] at hd

/-- Claim C6: a POST to /save whose Authorization header is absent or is not
exactly "Bearer " followed by the configured secret yields 401 and leaves the
store unchanged, regardless of every other request field. -/
theorem save_unauthorized (isJPEG : List Nat → Bool) (maxSize : Nat) (tok : String)
    (store : Store) (req : SaveRequest) (hm : req.method = "POST")
    (ha : req.authHeader = "" ∨ req.authHeader ≠ "Bearer " ++ tok) :
    saveHandler isJPEG maxSize tok store req = (.err 401 "Unauthorized", store) := by
  unfold saveHandler
  rw [if_neg (by simp [hm]), if_pos ha]

/-- A concrete upload request: correct method, wrong token, everything else
valid. -/
def cAuthReq : SaveRequest := ⟨"POST", "Bearer wrong", "pic", true, true, [1, 2], true, true, 0⟩

/-- An empty concrete store. -/
def emptyStore : Store := fun _ => none

/-- Claim C6 witness: the concrete wrong-token upload is refused with 401 and
the store it returns is the one it was given. -/
theorem save_unauthorized_witness :
    saveHandler (fun _ => true) 10 "secret" emptyStore cAuthReq
      = (.err 401 "Unauthorized", emptyStore) :=
  save_unauthorized (fun _ => true) 10 "secret" emptyStore cAuthReq rfl (Or.inr (by decide))

theorem saveHandler_changes (isJPEG : List Nat → Bool) (maxSize : Nat) (tok : String)
    (store : Store) (req : SaveRequest)
    (h : (saveHandler isJPEG maxSize tok store req).2 ≠ store) :
    req.method = "POST" ∧ req.authHeader = "Bearer " ++ tok
      ∧ req.filename ≠ "" ∧ validFilename req.filename = true
      ∧ req.formFileOk = true ∧ req.readOk = true
      ∧ isJPEG (req.body.take maxSize) = true := by
  unfold saveHandler at h
  by_cases h1 : req.method ≠ "POST"
  · rw [if_pos h1] at h
    exact absurd rfl h
  rw [if_neg h1] at h
  by_cases h2 : req.authHeader = "" ∨ req.authHeader ≠ "Bearer " ++ tok
  · rw [if_pos h2] at h
    exact absurd rfl h
  rw [if_neg h2] at h
  push_neg at h2
  by_cases h3 : (decide (req.filename = "") || !validFilename req.filename) = true
  · rw [if_pos h3] at h
    exact absurd rfl h
  rw [if_neg h3] at h
  simp only [Bool.or_eq_true, decide_eq_true_eq, Bool.not_eq_true', not_or] at h3
  by_cases h4 : (!req.formFileOk) = true
  · rw [if_pos h4] at h
    exact absurd rfl h
  rw [if_neg h4] at h
  by_cases h5 : (!req.readOk) = true
  · rw [if_pos h5] at h
    exact absurd rfl h
  rw [if_neg h5] at h
  by_cases h6 : (!isJPEG (req.body.take maxSize)) = true
  · rw [if_pos h6] at h
    exact absurd rfl h
  rw [if_neg h6] at h
  simp only [Bool.not_eq_true'] at h4 h5 h6
  exact ⟨of_not_not h1, h2.2, h3.1, Bool.not_eq_false _ ▸ h3.2, eq_true_of_ne_false h4,
    eq_true_of_ne_false h5, eq_true_of_ne_false h6⟩

/-- Claim C5: the upload pipeline performs no partial writes: any failure of
a stage before persistence (wrong method, bad or missing bearer token,
invalid filename, unreadable form field or body, bytes that are not valid
JPEG) leaves the blob store unchanged, and conversely the store can change
only when every validation stage has passed. -/
theorem save_no_partial_writes (isJPEG : List Nat → Bool) (maxSize : Nat) (tok : String)
    (store : Store) (req : SaveRequest) :
    ((req.method ≠ "POST" ∨ req.authHeader = "" ∨ req.authHeader ≠ "Bearer " ++ tok
        ∨ req.filename = "" ∨ validFilename req.filename = false
        ∨ req.formFileOk = false ∨ req.readOk = false
        ∨ isJPEG (req.body.take maxSize) = false)
      → (saveHandler isJPEG maxSize tok store req).2 = store)
    ∧ ((saveHandler isJPEG maxSize tok store req).2 ≠ store
      → req.method = "POST" ∧ req.authHeader = "Bearer " ++ tok
        ∧ req.filename ≠ "" ∧ validFilename req.filename = true
        ∧ req.formFileOk = true ∧ req.readOk = true
        ∧ isJPEG (req.body.take maxSize) = true) := by
  refine ⟨?_, saveHandler_changes isJPEG maxSize tok store req⟩
  intro hfail
  by_contra hne
  have hall := saveHandler_changes isJPEG maxSize tok store req hne
  rcases hfail with h | h | h | h | h | h | h | h
  · exact h hall.1
  · exact bearer_ne_empty tok (h ▸ hall.2.1).symm
  · exact h hall.2.1
  · exact hall.2.2.1 h
  · exact absurd hall.2.2.2.1 (by simp [h])
  · exact absurd hall.2.2.2.2.1 (by simp [h])
  · exact absurd hall.2.2.2.2.2.1 (by simp [h])
  · exact absurd hall.2.2.2.2.2.2 (by simp [h])

/-- A concrete upload request that fails JPEG validation but passes every
other stage. -/
def cBadJpegReq : SaveRequest := ⟨"POST", "Bearer secret", "pic", true, true, [1, 2], true, true, 0⟩

/-- Claim C5 witness: a concrete pre-persistence failure (the bytes are not
valid JPEG) leaves the concrete store unchanged. -/
theorem save_no_partial_writes_witness :
    (saveHandler (fun _ => false) 10 "secret" emptyStore cBadJpegReq).2 = emptyStore :=
  (save_no_partial_writes (fun _ => false) 10 "secret" emptyStore cBadJpegReq).1
    (Or.inr (Or.inr (Or.inr (Or.inr (Or.inr (Or.inr (Or.inr rfl)))))))


theorem renderCore_loaded (store : String → Option Blob) (req : RenderRequest)
    (blob : Blob) (img : RasterImage)
    (hne : req.filename ≠ "") (hfn : validFilename req.filename = true)
    (hstore : store req.filename = some blob) (hstat : blob.statOk = true)
    (hdec : blob.decoded = some img) :
    renderCore store req = match renderGeometry img req with
      | .error e => .error e
      | .ok rgba => .ok (rgba, blob.modTime) := by
  unfold renderCore
  rw [if_neg (by simp [hne, hfn]), hstore]
  simp only [hstat, hdec, Bool.not_true, Bool.false_eq_true, if_false]

theorem scaledHandler_ok (store : String → Option Blob) (cover : String → Int → Int → Bool)
    (now : String) (req : RenderRequest) (blob : Blob) (img rgba : RasterImage)
    (hne : req.filename ≠ "") (hfn : validFilename req.filename = true)
    (hstore : store req.filename = some blob) (hstat : blob.statOk = true)
    (hdec : blob.decoded = some img)
    (hgeo : renderGeometry img req = .ok rgba) :
    scaledHandler store cover now req =
      if req.nolabel = "" then
        .ok (drawText (cover (labelText blob.modTime now req)) (resolveColor req.color) rgba)
      else .ok rgba := by
  unfold scaledHandler
  rw [renderCore_loaded store req blob img hne hfn hstore hstat hdec, hgeo]

theorem renderGeometry_boxed (img : RasterImage) (req : RenderRequest) (x1 y1 x2 y2 : Int)
    (hx1 : resolveParam req.x1 0 = some x1) (hy1 : resolveParam req.y1 0 = some y1)
    (hx2 : resolveParam req.x2 img.bounds.maxX = some x2)
    (hy2 : resolveParam req.y2 img.bounds.maxY = some y2) :
    renderGeometry img req =
      match scaleStep req.w (subImage img (mkRect x1 y1 x2 y2)) with
      | none => .error (400, "Invalid w parameter")
      | some scaled => .ok (toRGBA scaled) := by
  unfold renderGeometry
  simp only [hx1, hy1, hx2, hy2]

theorem scaledHandler_err (store : String → Option Blob) (cover : String → Int → Int → Bool)
    (now : String) (req : RenderRequest) (blob : Blob) (img : RasterImage) (e : Nat × String)
    (hne : req.filename ≠ "") (hfn : validFilename req.filename = true)
    (hstore : store req.filename = some blob) (hstat : blob.statOk = true)
    (hdec : blob.decoded = some img)
    (hgeo : renderGeometry img req = .error e) :
    scaledHandler store cover now req = .err e.1 e.2 := by
  unfold scaledHandler
  rw [renderCore_loaded store req blob img hne hfn hstore hstat hdec, hgeo]

theorem resolveParam_present_none (s : String) (d : Int) (hne : s ≠ "") (h : atoi s = none) :
    resolveParam s d = none := by
  unfold resolveParam
  rw [if_neg hne]
  exact h

theorem scaledHandler_nolabel (store : String → Option Blob) (cover : String → Int → Int → Bool)
    (now : String) (req : RenderRequest) (h : req.nolabel ≠ "") :
    scaledHandler store cover now req = cropScaleRaster store req := by
  unfold scaledHandler cropScaleRaster
  cases hrc : renderCore store req with
  | error e => rfl
  | ok res =>
    dsimp only
    rw [if_neg h]

/-- Claim C9: a non-empty `nolabel` suppresses the overlay entirely: the
response equals the bare crop/scale result, and is unchanged under any
variation of the `id` and `color` parameters, the current time, the font
coverage, and the requester identity fields. -/
theorem nolabel_suppresses_overlay (store : String → Option Blob)
    (cover cover' : String → Int → Int → Bool) (now now' : String) (req : RenderRequest)
    (idv colorv xffv rav uav : String) (h : req.nolabel ≠ "") :
    scaledHandler store cover now req = cropScaleRaster store req
    ∧ scaledHandler store cover now req
      = scaledHandler store cover' now'
          { req with
            id := idv
            color := colorv
            xForwardedFor := xffv
            remoteAddr := rav
            userAgent := uav } := by
  refine ⟨scaledHandler_nolabel store cover now req h, ?_⟩
  rw [scaledHandler_nolabel store cover now req h,
    scaledHandler_nolabel store cover' now'
      { req with
        id := idv
        color := colorv
        xForwardedFor := xffv
        remoteAddr := rav
        userAgent := uav } h]
  rfl

/-- Claim C9 witness: at a concrete store, request and two different
time/color/identity environments, the two responses' observations agree. -/
theorem nolabel_suppresses_overlay_witness :
    ((scaledHandler testStore testCover "t1" { baseReq with nolabel := "1" }).outDims
        = (cropScaleRaster testStore { baseReq with nolabel := "1" }).outDims)
    ∧ (scaledHandler testStore testCover "t1" { baseReq with nolabel := "1" }).outDims
        = some (100, 100) := by
  have h := nolabel_suppresses_overlay testStore testCover testCover "t1" "t2"
    { baseReq with nolabel := "1" } "someid" "FF0000" "1.2.3.4" "5.6.7.8" "ua" (by decide)
  exact ⟨by rw [h.1], by rw [h.1]; rfl⟩

/-- Claim C3 counterexample: `x1=-5` is present and is not a non-negative
integer, yet the render does not abort with a parameter error: it proceeds
and produces the full 100×100 image (Go parses the box fields with
`strconv.Atoi`, which accepts negative integers). -/
theorem negative_param_accepted_cex :
    atoi ("-5") = some (-5)
    ∧ (scaledHandler testStore testCover "t" { baseReq with x1 := "-5" }).isErr = false
    ∧ (scaledHandler testStore testCover "t" { baseReq with x1 := "-5" }).outDims
        = some (100, 100) := by
  refine ⟨by decide, ?_, ?_⟩ <;> rfl

/-- Claim C3 amended: `x1,y1,x2,y2` are optional signed integers (parsed with
`strconv.Atoi`) and `w` is an optional non-negative 32-bit integer; a present
value that fails its respective parse aborts the render with a 400 naming
the offending field, and no image is produced. -/
theorem param_parse_errors_abort (store : String → Option Blob)
    (cover : String → Int → Int → Bool) (now : String) (req : RenderRequest)
    (blob : Blob) (img : RasterImage)
    (hne : req.filename ≠ "") (hfn : validFilename req.filename = true)
    (hstore : store req.filename = some blob) (hstat : blob.statOk = true)
    (hdec : blob.decoded = some img) :
    ((req.x1 ≠ "" ∧ atoi req.x1 = none) →
      scaledHandler store cover now req = .err 400 "Invalid x1 parameter")
    ∧ (∀ x1 : Int, resolveParam req.x1 0 = some x1 →
      (req.y1 ≠ "" ∧ atoi req.y1 = none) →
      scaledHandler store cover now req = .err 400 "Invalid y1 parameter")
    ∧ (∀ x1 y1 : Int, resolveParam req.x1 0 = some x1 → resolveParam req.y1 0 = some y1 →
      (req.x2 ≠ "" ∧ atoi req.x2 = none) →
      scaledHandler store cover now req = .err 400 "Invalid x2 parameter")
    ∧ (∀ x1 y1 x2 : Int, resolveParam req.x1 0 = some x1 → resolveParam req.y1 0 = some y1 →
      resolveParam req.x2 img.bounds.maxX = some x2 →
      (req.y2 ≠ "" ∧ atoi req.y2 = none) →
      scaledHandler store cover now req = .err 400 "Invalid y2 parameter")
    ∧ (∀ x1 y1 x2 y2 : Int, resolveParam req.x1 0 = some x1 → resolveParam req.y1 0 = some y1 →
      resolveParam req.x2 img.bounds.maxX = some x2 →
      resolveParam req.y2 img.bounds.maxY = some y2 →
      (req.w ≠ "" ∧ parseUint32 req.w = none) →
      scaledHandler store cover now req = .err 400 "Invalid w parameter") := by
  refine ⟨?_, ?_, ?_, ?_, ?_⟩
  · intro hx
    refine scaledHandler_err store cover now req blob img (400, "Invalid x1 parameter") hne hfn hstore hstat hdec ?_
    unfold renderGeometry
    rw [resolveParam_present_none req.x1 0 hx.1 hx.2]
  · intro x1 hx1 hy
    refine scaledHandler_err store cover now req blob img (400, "Invalid y1 parameter") hne hfn hstore hstat hdec ?_
    unfold renderGeometry
    simp only [hx1, resolveParam_present_none req.y1 0 hy.1 hy.2]
  · intro x1 y1 hx1 hy1 hx
    refine scaledHandler_err store cover now req blob img (400, "Invalid x2 parameter") hne hfn hstore hstat hdec ?_
    unfold renderGeometry
    simp only [hx1, hy1, resolveParam_present_none req.x2 img.bounds.maxX hx.1 hx.2]
  · intro x1 y1 x2 hx1 hy1 hx2 hy
    refine scaledHandler_err store cover now req blob img (400, "Invalid y2 parameter") hne hfn hstore hstat hdec ?_
    unfold renderGeometry
    simp only [hx1, hy1, hx2, resolveParam_present_none req.y2 img.bounds.maxY hy.1 hy.2]
  · intro x1 y1 x2 y2 hx1 hy1 hx2 hy2 hw
    refine scaledHandler_err store cover now req blob img (400, "Invalid w parameter") hne hfn hstore hstat hdec ?_
    rw [renderGeometry_boxed img req x1 y1 x2 y2 hx1 hy1 hx2 hy2]
    unfold scaleStep
    rw [if_neg hw.1, hw.2]

/-- Claim C3 (amended) witness: a concrete request whose `w` value does not
parse as an unsigned integer is refused with the 400 naming `w`. -/
theorem param_parse_errors_abort_witness :
    scaledHandler testStore testCover "t" { baseReq with w := "abc" }
      = .err 400 "Invalid w parameter" :=
  (param_parse_errors_abort testStore testCover "t" { baseReq with w := "abc" }
      testBlob testImg (by decide) (by decide) rfl rfl rfl).2.2.2.2 0 0 100 100
    rfl rfl rfl rfl ⟨by decide, by decide⟩

theorem mkRect_deg_empty (x1 y1 x2 y2 : Int) (h : x1 = x2 ∨ y1 = y2) :
    (mkRect x1 y1 x2 y2).isEmpty = true := by
  unfold mkRect Rect.isEmpty
  dsimp only
  rcases h with h | h <;> split_ifs <;> (rw [decide_eq_true_eq]; omega)

theorem intersect_of_empty (r s : Rect) (h : r.isEmpty = true) :
    r.intersect s = Rect.zero := by
  unfold Rect.intersect
  dsimp only
  rw [if_pos ?ht]
  case ht =>
    unfold Rect.isEmpty at h ⊢
    rw [decide_eq_true_eq] at h ⊢
    dsimp only
    rcases h with h | h
    · exact Or.inl (by omega)
    · exact Or.inr (by omega)

/-- Claim C2 counterexample: a request whose resolved crop box is
`(0,0)-(0,100)` — zero width — is not answered with an error: the handler
returns a successfully rendered degenerate image of dimensions 0×0. -/
theorem degenerate_box_no_error_cex :
    (scaledHandler testStore testCover "t" { baseReq with x2 := "0", y2 := "100" }).isErr
        = false
    ∧ (scaledHandler testStore testCover "t" { baseReq with x2 := "0", y2 := "100" }).outDims
        = some (0, 0) := by
  refine ⟨?_, ?_⟩ <;> rfl

/-- Claim C2 amended: a render request whose resolved crop box has zero width
or zero height and whose `w` parameter is absent does not produce an error:
the empty crop intersects to the zero rectangle and the pipeline returns a
degenerate 0×0 image with success. -/
theorem degenerate_box_returns_empty_image (store : String → Option Blob)
    (cover : String → Int → Int → Bool) (now : String) (req : RenderRequest)
    (blob : Blob) (img : RasterImage) (x1 y1 x2 y2 : Int)
    (hne : req.filename ≠ "") (hfn : validFilename req.filename = true)
    (hstore : store req.filename = some blob) (hstat : blob.statOk = true)
    (hdec : blob.decoded = some img)
    (hx1 : resolveParam req.x1 0 = some x1) (hy1 : resolveParam req.y1 0 = some y1)
    (hx2 : resolveParam req.x2 img.bounds.maxX = some x2)
    (hy2 : resolveParam req.y2 img.bounds.maxY = some y2)
    (hw : req.w = "") (hdeg : x1 = x2 ∨ y1 = y2) :
    (scaledHandler store cover now req).isErr = false
    ∧ (scaledHandler store cover now req).outDims = some (0, 0) := by
  have hsub : subImage img (mkRect x1 y1 x2 y2)
      = { bounds := Rect.zero, pix := img.pix } := by
    unfold subImage
    rw [intersect_of_empty _ _ (mkRect_deg_empty x1 y1 x2 y2 hdeg)]
  have hscale : scaleStep req.w (subImage img (mkRect x1 y1 x2 y2))
      = some (subImage img (mkRect x1 y1 x2 y2)) := by
    unfold scaleStep
    rw [if_pos hw]
  have hgeo : renderGeometry img req
      = .ok (toRGBA (subImage img (mkRect x1 y1 x2 y2))) := by
    rw [renderGeometry_boxed img req x1 y1 x2 y2 hx1 hy1 hx2 hy2, hscale]
  rw [scaledHandler_ok store cover now req blob img _ hne hfn hstore hstat hdec hgeo]
  rw [hsub]
  split_ifs <;> exact ⟨rfl, rfl⟩

/-- Claim C2 (amended) witness: the zero-width concrete request renders
successfully to a 0×0 image. -/
theorem degenerate_box_returns_empty_image_witness :
    (scaledHandler testStore testCover "t2" { baseReq with x2 := "0" }).isErr = false
    ∧ (scaledHandler testStore testCover "t2" { baseReq with x2 := "0" }).outDims
        = some (0, 0) :=
  degenerate_box_returns_empty_image testStore testCover "t2" { baseReq with x2 := "0" }
    testBlob testImg 0 0 0 100 (by decide) (by decide) rfl rfl rfl rfl rfl (by decide) rfl
    rfl (Or.inl rfl)

theorem mkRect_canon (x0 y0 x1 y1 : Int) :
    mkRect x0 y0 x1 y1 = ⟨min x0 x1, min y0 y1, max x0 x1, max y0 y1⟩ := by
  unfold mkRect
  dsimp only
  split_ifs <;> (rw [Rect.mk.injEq]; refine ⟨?_, ?_, ?_, ?_⟩ <;> omega)

theorem outDims_ok (i : RasterImage) : (HResp.ok i).outDims = some (i.bounds.dx, i.bounds.dy) := rfl

/-- Claim C4: an out-of-bounds or reversed crop box never makes the crop step
fail: `image.Rect` first swaps the coordinates so min ≤ max on each axis,
`SubImage` then intersects the rectangle with the source bounds, and (for an
unscaled render) the pipeline proceeds to answer with exactly that
intersection as the produced image's bounds. -/
theorem crop_canonicalize_intersect :
    (∀ x0 y0 x1 y1 : Int,
      mkRect x0 y0 x1 y1 = ⟨min x0 x1, min y0 y1, max x0 x1, max y0 y1⟩)
    ∧ (∀ (img : RasterImage) (r : Rect), (subImage img r).bounds = r.intersect img.bounds)
    ∧ (∀ (store : String → Option Blob) (cover : String → Int → Int → Bool)
        (now : String) (req : RenderRequest) (blob : Blob) (img : RasterImage)
        (x1 y1 x2 y2 : Int),
        req.filename ≠ "" → validFilename req.filename = true →
        store req.filename = some blob → blob.statOk = true → blob.decoded = some img →
        resolveParam req.x1 0 = some x1 → resolveParam req.y1 0 = some y1 →
        resolveParam req.x2 img.bounds.maxX = some x2 →
        resolveParam req.y2 img.bounds.maxY = some y2 → req.w = "" →
        (scaledHandler store cover now req).isErr = false
        ∧ (scaledHandler store cover now req).outDims
            = some (((mkRect x1 y1 x2 y2).intersect img.bounds).dx,
                    ((mkRect x1 y1 x2 y2).intersect img.bounds).dy)) := by
  refine ⟨mkRect_canon, fun _ _ => rfl, ?_⟩
  intro store cover now req blob img x1 y1 x2 y2 hne hfn hstore hstat hdec hx1 hy1 hx2 hy2 hw
  have hscale : scaleStep req.w (subImage img (mkRect x1 y1 x2 y2))
      = some (subImage img (mkRect x1 y1 x2 y2)) := by
    unfold scaleStep
    rw [if_pos hw]
  have hgeo : renderGeometry img req
      = .ok (toRGBA (subImage img (mkRect x1 y1 x2 y2))) := by
    rw [renderGeometry_boxed img req x1 y1 x2 y2 hx1 hy1 hx2 hy2, hscale]
  rw [scaledHandler_ok store cover now req blob img _ hne hfn hstore hstat hdec hgeo]
  split_ifs <;> exact ⟨rfl, rfl⟩

/-- Claim C4 witness: a concrete reversed, partly out-of-range box
`(150,-20)-(30,70)` is canonicalized and clipped to `(30,0)-(100,70)` inside
the 100×100 test image, and the unscaled render succeeds with exactly those
70×70 dimensions. -/
theorem crop_canonicalize_intersect_witness :
    mkRect 150 (-20) 30 70 = ⟨30, -20, 150, 70⟩
    ∧ (scaledHandler testStore testCover "t"
        { baseReq with x1 := "150", y1 := "-20", x2 := "30", y2 := "70" }).isErr = false
    ∧ (scaledHandler testStore testCover "t"
        { baseReq with x1 := "150", y1 := "-20", x2 := "30", y2 := "70" }).outDims
        = some (70, 70) := by
  have h := crop_canonicalize_intersect
  have h3 := h.2.2 testStore testCover "t"
    { baseReq with x1 := "150", y1 := "-20", x2 := "30", y2 := "70" }
    testBlob testImg 150 (-20) 30 70 (by decide) (by decide) rfl rfl rfl
    (by decide) (by decide) (by decide) (by decide) rfl
  refine ⟨?_, h3.1, ?_⟩
  · rw [h.1 150 (-20) 30 70]
    decide
  · rw [h3.2]
    decide

/-- Claim C7: the label color is an optional hex parameter resolved
leniently: `color=FF0000` makes every glyph-covered in-bounds pixel of the
labeled render exactly (255,0,0) at full opacity, while an unparseable value
like `color=zzzzzz` silently falls back to opaque white — the render still
succeeds and the covered pixels are white. -/
theorem label_color_resolution (store : String → Option Blob)
    (cover : String → Int → Int → Bool) (now : String) (req : RenderRequest)
    (blob : Blob) (img rgba : RasterImage)
    (hne : req.filename ≠ "") (hfn : validFilename req.filename = true)
    (hstore : store req.filename = some blob) (hstat : blob.statOk = true)
    (hdec : blob.decoded = some img)
    (hgeo : renderGeometry img req = .ok rgba)
    (hnl : req.nolabel = "") :
    (req.color = "FF0000" → ∀ x y : Int,
      cover (labelText blob.modTime now req) x y = true →
      (scaledHandler store cover now req).inBoundsAt x y = true →
      (scaledHandler store cover now req).pixAt x y = some ⟨255, 0, 0, 255⟩)
    ∧ (req.color = "zzzzzz" →
      (scaledHandler store cover now req).isErr = false
      ∧ ∀ x y : Int,
        cover (labelText blob.modTime now req) x y = true →
        (scaledHandler store cover now req).inBoundsAt x y = true →
        (scaledHandler store cover now req).pixAt x y = some white)
    ∧ resolveColor "FF0000" = ⟨255, 0, 0, 255⟩
    ∧ resolveColor "zzzzzz" = white := by
  have hh := scaledHandler_ok store cover now req blob img rgba hne hfn hstore hstat hdec hgeo
  rw [if_pos hnl] at hh
  have hpix : ∀ x y : Int,
      cover (labelText blob.modTime now req) x y = true →
      (scaledHandler store cover now req).inBoundsAt x y = true →
      (scaledHandler store cover now req).pixAt x y = some (resolveColor req.color) := by
    intro x y hcov hin
    rw [hh] at hin ⊢
    unfold HResp.inBoundsAt at hin
    unfold HResp.pixAt
    dsimp only at hin ⊢
    rw [if_pos hin]
    unfold drawText at hin ⊢
    dsimp only at hin ⊢
    rw [hcov, Bool.true_and, if_pos hin]
  refine ⟨?_, ?_, rfl, rfl⟩
  · intro hc x y hcov hin
    rw [hpix x y hcov hin, hc]
    rfl
  · intro hc
    refine ⟨by rw [hh]; rfl, ?_⟩
    intro x y hcov hin
    rw [hpix x y hcov hin, hc]
    rfl

/-- Claim C7 witness: at the concrete store and coverage, `color=FF0000`
paints the covered pixel (10,20) pure red, and `color=zzzzzz` paints it
opaque white without an error. -/
theorem label_color_resolution_witness :
    (scaledHandler testStore testCover "t" { baseReq with color := "FF0000" }).pixAt 10 20
        = some ⟨255, 0, 0, 255⟩
    ∧ (scaledHandler testStore testCover "t" { baseReq with color := "zzzzzz" }).pixAt 10 20
        = some white := by
  have h1 := label_color_resolution testStore testCover "t" { baseReq with color := "FF0000" }
    testBlob testImg (toRGBA (subImage testImg (mkRect 0 0 100 100)))
    (by decide) (by decide) rfl rfl rfl rfl rfl
  have h2 := label_color_resolution testStore testCover "t" { baseReq with color := "zzzzzz" }
    testBlob testImg (toRGBA (subImage testImg (mkRect 0 0 100 100)))
    (by decide) (by decide) rfl rfl rfl rfl rfl
  exact ⟨h1.1 rfl 10 20 rfl rfl, (h2.2.1 rfl).2 10 20 rfl rfl⟩

theorem hexVal_le (c : Char) : hexVal c ≤ 15 := by
  unfold hexVal
  split_ifs <;> omega

theorem hexFold_lt (l : List Char) : ∀ a : Nat,
    l.foldl (fun a c => a * 16 + hexVal c) a < 16 ^ l.length * (a + 1) := by
  induction l with
  | nil =>
    intro a
    simp only [List.foldl_nil, List.length_nil, pow_zero, one_mul]
    omega
  | cons c t ih =>
    intro a
    have h1 := ih (a * 16 + hexVal c)
    have h2 := hexVal_le c
    refine lt_of_lt_of_le h1 ?_
    rw [List.length_cons, pow_succ, mul_assoc]
    exact Nat.mul_le_mul_left _ (by omega)

theorem hexListVal_lt (l : List Char) (h8 : l.length ≤ 8) : hexListVal l < 2 ^ 32 := by
  have h := hexFold_lt l 0
  have hle : 16 ^ l.length ≤ 16 ^ 8 := Nat.pow_le_pow_right (by omega) h8
  unfold hexListVal
  calc l.foldl (fun a c => a * 16 + hexVal c) 0 < 16 ^ l.length * 1 := h
    _ = 16 ^ l.length := Nat.mul_one _
    _ ≤ 16 ^ 8 := hle
    _ = 2 ^ 32 := by norm_num

/-- Claim C8: any non-empty `color` value of at most 8 hex digits parses
successfully — the white fallback is not taken — and the label color is the
low 24 bits of the parsed value: R is bits 16–23, G bits 8–15, B bits 0–7,
at full opacity. -/
theorem short_hex_color_parses (s : String)
    (h1 : s.data ≠ []) (h8 : s.data.length ≤ 8) (hhex : s.data.all isHexChar = true) :
    parseHex32 s = some (hexListVal s.data)
    ∧ resolveColor s
      = ⟨hexListVal s.data >>> 16 % 256, hexListVal s.data >>> 8 % 256,
         hexListVal s.data % 256, 255⟩ := by
  have hlt : hexListVal s.data < 2 ^ 32 := hexListVal_lt s.data h8
  have hp : parseHex32 s = some (hexListVal s.data) := by
    unfold parseHex32
    rw [if_pos ⟨h1, hhex⟩, if_pos hlt]
  have hne : s ≠ "" := by
    intro he
    apply h1
    rw [he]
  refine ⟨hp, ?_⟩
  unfold resolveColor
  rw [if_neg hne, hp]

/-- Claim C8 witness: the one-digit value `color=F` parses and yields label
color (0,0,15) at full opacity — not the white fallback. -/
theorem short_hex_color_parses_witness :
    parseHex32 ("F") = some 15 ∧ resolveColor ("F") = ⟨0, 0, 15, 255⟩ := by
  have h := short_hex_color_parses ("F") (by decide) (by decide) (by decide)
  exact ⟨h.1, h.2⟩

theorem drawText_bounds (c : Int → Int → Bool) (col : RGBA) (i : RasterImage) :
    (drawText c col i).bounds = i.bounds := rfl

theorem toRGBA_bounds (i : RasterImage) : (toRGBA i).bounds = i.bounds := rfl

theorem resizeModel_dx (width nh : Nat) (img : RasterImage) :
    (resizeModel width nh img).bounds.dx = width := by
  unfold resizeModel
  split
  next h => exact h.1.symm
  next => simp [Rect.dx]

theorem resizeModel_dy (width nh : Nat) (img : RasterImage) :
    (resizeModel width nh img).bounds.dy = nh := by
  unfold resizeModel
  split
  next h => exact h.2.symm
  next => simp [Rect.dy]

theorem div_round_adjacent (n Wn : Nat) (h : 0 < Wn) :
    n / Wn ≤ (2 * n + Wn) / (2 * Wn) ∧ (2 * n + Wn) / (2 * Wn) ≤ n / Wn + 1 := by
  have hmod : n % Wn < Wn := Nat.mod_lt n h
  have hdm : Wn * (n / Wn) + n % Wn = n := Nat.div_add_mod n Wn
  have h2 : 2 * n + Wn = 2 * (n % Wn) + Wn + 2 * Wn * (n / Wn) := by
    conv_lhs => rw [← hdm]
    ring
  rw [h2, Nat.add_mul_div_left _ _ (by omega : 0 < 2 * Wn)]
  have hlt : (2 * (n % Wn) + Wn) / (2 * Wn) ≤ 1 :=
    Nat.lt_succ_iff.mp (Nat.div_lt_of_lt_mul (by omega))
  constructor
  · exact Nat.le_add_left _ _
  · calc (2 * (n % Wn) + Wn) / (2 * Wn) + n / Wn
        ≤ 1 + n / Wn := Nat.add_le_add_right hlt (n / Wn)
      _ = n / Wn + 1 := Nat.add_comm 1 (n / Wn)

/-- Claim C1: when the resolved crop box has positive width `W` and height
`H` and `w` parses as a positive integer `wv`, the crop-and-scale step
produces an image of width exactly `wv` and height `⌊H*wv/W⌋`, which is
within ±1 of `round(H*wv/W) = ⌊(2*H*wv+W)/(2*W)⌋`. -/
theorem crop_scale_dimensions (store : String → Option Blob)
    (cover : String → Int → Int → Bool) (now : String) (req : RenderRequest)
    (blob : Blob) (img : RasterImage) (x1 y1 x2 y2 : Int) (wv W H : Nat)
    (hne : req.filename ≠ "") (hfn : validFilename req.filename = true)
    (hstore : store req.filename = some blob) (hstat : blob.statOk = true)
    (hdec : blob.decoded = some img)
    (hx1 : resolveParam req.x1 0 = some x1) (hy1 : resolveParam req.y1 0 = some y1)
    (hx2 : resolveParam req.x2 img.bounds.maxX = some x2)
    (hy2 : resolveParam req.y2 img.bounds.maxY = some y2)
    (hw : parseUint32 req.w = some wv) ( _hwpos : 0 < wv)
    (hWdef : W = ((mkRect x1 y1 x2 y2).intersect img.bounds).dx.toNat)
    (hHdef : H = ((mkRect x1 y1 x2 y2).intersect img.bounds).dy.toNat)
    (hW : 0 < W) ( _hH : 0 < H) :
    (scaledHandler store cover now req).outDims
        = some ((wv : Int), ((H * wv / W : Nat) : Int))
    ∧ H * wv / W ≤ (2 * (H * wv) + W) / (2 * W)
    ∧ (2 * (H * wv) + W) / (2 * W) ≤ H * wv / W + 1 := by
  have hwne : req.w ≠ "" := by
    intro he
    rw [he] at hw
    exact Option.noConfusion hw
  have hscale : scaleStep req.w (subImage img (mkRect x1 y1 x2 y2))
      = some (resizeModel wv (scaledHeight wv W H) (subImage img (mkRect x1 y1 x2 y2))) := by
    unfold scaleStep
    rw [if_neg hwne, hw, hWdef, hHdef]
    rfl
  have hgeo : renderGeometry img req
      = .ok (toRGBA (resizeModel wv (scaledHeight wv W H)
          (subImage img (mkRect x1 y1 x2 y2)))) := by
    rw [renderGeometry_boxed img req x1 y1 x2 y2 hx1 hy1 hx2 hy2, hscale]
  have hdims : (scaledHandler store cover now req).outDims
      = some ((wv : Int), ((H * wv / W : Nat) : Int)) := by
    rw [scaledHandler_ok store cover now req blob img _ hne hfn hstore hstat hdec hgeo]
    split_ifs <;>
      simp only [outDims_ok, drawText_bounds, toRGBA_bounds, resizeModel_dx, resizeModel_dy,
        scaledHeight]
  have harith := div_round_adjacent (H * wv) W hW
  exact ⟨hdims, harith.1, harith.2⟩

/-- Claim C1 witness: cropping the 100×100 test image to a 30×70 box and
scaling to `w=45` yields exactly 45×105, with 105 within ±1 of
round(70*45/30). -/
theorem crop_scale_dimensions_witness :
    (scaledHandler testStore testCover "t"
        { baseReq with x2 := "30", y2 := "70", w := "45" }).outDims = some (45, 105) := by
  have h := crop_scale_dimensions testStore testCover "t"
    { baseReq with x2 := "30", y2 := "70", w := "45" }
    testBlob testImg 0 0 30 70 45 30 70 (by decide) (by decide) rfl rfl rfl
    rfl rfl (by decide) (by decide) (by decide) (by decide) (by decide) (by decide)
    (by decide) (by decide)
  rw [h.1]
  decide

end Getter
